import Mathlib

/-!
Verification of the cert-manager Gandi webhook solver (`main.go`) against its
specification. Go strings are embedded as `List Char`; the Kubernetes secret
store, the JSON decoder and the Gandi LiveDNS HTTP API are external
collaborators, so they enter as parameters (an environment and a response
oracle), and the provider calls a solver operation issues are returned as an
explicit trace. A provider-state transition system, modelled from the spec's
description of the external DNS API, interprets those traces for the
idempotence property.
-/

namespace GandiWebhook

/-- Embedding of Go `strings.TrimSuffix(s, suffix)`: if `s` ends with
`suffix` the result is `s` without that suffix, otherwise `s` unchanged
(`main.go` uses it at lines 216-218). -/
def trimSuffix (s suffix : List Char) : List Char :=
  if suffix.isSuffixOf s then s.take (s.length - suffix.length) else s

/-- Embedding of the `ChallengeRequest` fields `main.go` reads:
`ResolvedZone`, `ResolvedFQDN`, `Key`, `ResourceNamespace`, `Config`
(the raw JSON payload, absent when the Go pointer is nil). -/
structure ChallengeRequest where
  resolvedZone : List Char
  resolvedFQDN : List Char
  key : List Char
  resourceNamespace : List Char
  config : Option (List Char)

/-- Embedding of `getDomainAndChallengeFQDN` from `main.go` lines 214-220:
trim the zone suffix off the FQDN, trim a trailing dot off the remainder,
trim the trailing dot off the zone; returns `(entry, domain)`. -/
def getDomainAndChallengeFQDN (ch : ChallengeRequest) : List Char × List Char :=
  let entry := trimSuffix ch.resolvedFQDN ch.resolvedZone
  let entry := trimSuffix entry (String.data ".")
  let domain := trimSuffix ch.resolvedZone (String.data ".")
  (entry, domain)

/-- Spec-side reading of "with one trailing dot removed" (spec §8): strip a
single trailing `'.'` when present. Stated from the spec's words, to be
compared with the source's `trimSuffix entry "."`. -/
def specDropTrailingDot (l : List Char) : List Char :=
  if l.getLast? = some '.' then l.dropLast else l

/-- Spec-side reading of "f with the suffix z removed" (spec §8), for the case
the spec quantifies over (`f` ends with `z`): the first
`f.length - z.length` characters of `f`. -/
def specDropZoneSuffix (f z : List Char) : List Char :=
  f.take (f.length - z.length)

/-- Embedding of `cmmeta.SecretKeySelector` as used by `main.go`: the secret
name (`LocalObjectReference.Name`) and the key within that secret. -/
structure SecretKeySelector where
  name : List Char
  key : List Char

/-- Embedding of `gandiDNSProviderConfig` from `main.go` lines 66-70: the
decoded solver configuration, a single secret reference `PATSecretRef`. -/
structure gandiDNSProviderConfig where
  patSecretRef : SecretKeySelector

/-- A Kubernetes secret as `main.go` consumes it: the `Data` map from key to
byte string, embedded as an association list. -/
structure Secret where
  data : List (List Char × List Char)

/-- First value bound to a key in a secret's data map (Go `sec.Data[key]`
together with its `ok` flag, as `Option`). -/
def Secret.lookupData (sec : Secret) (key : List Char) : Option (List Char) :=
  (sec.data.find? (fun e => decide (e.1 = key))).map (fun e => e.2)

/-- The external collaborators `getGandiClient` calls into: `json.Unmarshal`
(encoding/json, external) and the Kubernetes secret store
(`Secrets(namespace).Get`, external). Each may fail with a message. -/
structure KubeEnv where
  unmarshal : List Char → Except (List Char) gandiDNSProviderConfig
  getSecret : List Char → List Char → Except (List Char) Secret

/-- The go-gandi LiveDNS client value `getGandiClient` constructs: it wraps
the personal access token extracted from the secret (`main.go` lines 206-211). -/
structure LiveDNS where
  personalAccessToken : List Char

/-- The four `fmt.Errorf` failure exits of `getGandiClient` (`main.go`
lines 181-212), one constructor per `return nil, fmt.Errorf(...)` site,
carrying the values the format string interpolates. -/
inductive GandiClientError
  | noConfiguration
  | decodeError (msg : List Char)
  | secretGetError (secretName : List Char) (msg : List Char)
  | keyNotFound (key : List Char) (secretName : List Char) (ns : List Char)
deriving DecidableEq

/-- The error text each `fmt.Errorf` in `getGandiClient` produces (`%v` of a
nil `*extapi.JSON` prints `<nil>`; `%q` quotes the key). -/
def GandiClientError.message : GandiClientError → List Char
  | .noConfiguration => String.data "no configuration provided: <nil>"
  | .decodeError msg => String.data "error decoding solver config: " ++ msg
  | .secretGetError secretName msg =>
      String.data "unable to get secret `" ++ secretName ++ String.data "`; " ++ msg
  | .keyNotFound key secretName ns =>
      String.data "key \"" ++ key ++ String.data "\" not found in secret \"" ++
        secretName ++ String.data "/" ++ ns ++ String.data "\""

/-- Embedding of `getGandiClient` from `main.go` lines 181-212: nil-config
check, JSON decode, secret fetch, key extraction, client construction.
Besides the result it reports the secret-store lookups performed
(namespace, name), so that "no secret lookup happened" is a statement about
the output. -/
def getGandiClient (env : KubeEnv) (cfgJSON : Option (List Char)) (ns : List Char) :
    Except GandiClientError LiveDNS × List (List Char × List Char) :=
  match cfgJSON with
  | none => (.error .noConfiguration, [])
  | some raw =>
    match env.unmarshal raw with
    | .error e => (.error (.decodeError e), [])
    | .ok cfg =>
      let secretName := cfg.patSecretRef.name
      match env.getSecret ns secretName with
      | .error e => (.error (.secretGetError secretName e), [(ns, secretName)])
      | .ok sec =>
        match sec.lookupData cfg.patSecretRef.key with
        | none => (.error (.keyNotFound cfg.patSecretRef.key secretName ns), [(ns, secretName)])
        | some secBytes => (.ok ⟨secBytes⟩, [(ns, secretName)])

/-- Gandi reports an error for TTL values below this (`main.go` line 24). -/
def GandiMinTtl : Nat := 300

/-- A DNS record as the go-gandi client returns it; `main.go` reads
`RrsetName` and `RrsetValues` (a zero value, empty name and no values, stands
for "no record found"). -/
structure DomainRecord where
  rrsetName : List Char
  rrsetType : List Char
  rrsetTTL : Nat
  rrsetValues : List (List Char)
deriving DecidableEq

/-- Response of the go-gandi update call; `main.go` checks `resp.Code`. -/
structure UpdateResponse where
  code : Nat
deriving DecidableEq

/-- One HTTP call to the Gandi LiveDNS API, with the arguments `main.go`
passes: `GetDomainRecordByNameAndType(domain, name, type)`,
`UpdateDomainRecordByNameAndType(domain, name, type, ttl, values)`,
`DeleteDomainRecord(domain, name, type)`. -/
inductive ProviderCall
  | getRecord (domain name rtype : List Char)
  | updateRecord (domain name rtype : List Char) (ttl : Nat) (values : List (List Char))
  | deleteRecord (domain name rtype : List Char)
deriving DecidableEq

/-- The responses the external Gandi API gives to the (at most one) call of
each kind a single solver operation performs; transport failures are `.error`
with the message `%v` would print. -/
structure GandiOracle where
  getRecordResult : Except (List Char) DomainRecord
  updateResult : Except (List Char) UpdateResponse
  deleteResult : Except (List Char) Unit

/-- The `fmt.Errorf` failure exits of `Present` (`main.go` lines 87-125), one
constructor per return site, carrying the interpolated values. -/
inductive PresentError
  | clientError (e : GandiClientError)
  | preCheckError (msg : List Char)
  | changeTransport (msg : List Char)
  | changeCode (code : Nat) (domain : List Char)
  | createTransport (msg : List Char)
  | createCode (code : Nat) (domain : List Char)
deriving DecidableEq

/-- The error text each `fmt.Errorf` in `Present` produces. -/
def PresentError.message : PresentError → List Char
  | .clientError e => String.data "unable to get Gandi client: " ++ e.message
  | .preCheckError msg => String.data "present: pre: unable to check TXT record: " ++ msg
  | .changeTransport msg => String.data "unable to change TXT record: " ++ msg
  | .changeCode code domain =>
      String.data "got code " ++ Nat.toDigits 10 code ++
        String.data " while trying to change TXT record: " ++ domain
  | .createTransport msg => String.data "unable to create TXT record: " ++ msg
  | .createCode code domain =>
      String.data "got code " ++ Nat.toDigits 10 code ++
        String.data " while trying to create TXT record: " ++ domain

/-- Embedding of `Present` from `main.go` lines 87-125: build the client,
split the name, read the existing TXT record, then in either branch of the
found-check issue the same update with `GandiMinTtl` and the one-element
value list `[ch.Key]`. Returns the Go result and the trace of provider calls
issued. -/
def Present (env : KubeEnv) (oracle : GandiOracle) (ch : ChallengeRequest) :
    Except PresentError Unit × List ProviderCall :=
  match (getGandiClient env ch.config ch.resourceNamespace).1 with
  | .error e => (.error (.clientError e), [])
  | .ok _gandiClient =>
    let (challengeFQDN, domain) := getDomainAndChallengeFQDN ch
    match oracle.getRecordResult with
    | .error e =>
        (.error (.preCheckError e),
         [.getRecord domain challengeFQDN (String.data "TXT")])
    | .ok domainRecord =>
      let recordVal := [ch.key]
      if domainRecord.rrsetName ≠ [] ∧ domainRecord.rrsetValues.length > 0 then
        match oracle.updateResult with
        | .error e =>
            (.error (.changeTransport e),
             [.getRecord domain challengeFQDN (String.data "TXT"),
              .updateRecord domain challengeFQDN (String.data "TXT") GandiMinTtl recordVal])
        | .ok resp =>
            if resp.code ≠ 200 then
              (.error (.changeCode resp.code domain),
               [.getRecord domain challengeFQDN (String.data "TXT"),
                .updateRecord domain challengeFQDN (String.data "TXT") GandiMinTtl recordVal])
            else
              (.ok (),
               [.getRecord domain challengeFQDN (String.data "TXT"),
                .updateRecord domain challengeFQDN (String.data "TXT") GandiMinTtl recordVal])
      else
        match oracle.updateResult with
        | .error e =>
            (.error (.createTransport e),
             [.getRecord domain challengeFQDN (String.data "TXT"),
              .updateRecord domain challengeFQDN (String.data "TXT") GandiMinTtl recordVal])
        | .ok resp =>
            if resp.code ≠ 200 then
              (.error (.createCode resp.code domain),
               [.getRecord domain challengeFQDN (String.data "TXT"),
                .updateRecord domain challengeFQDN (String.data "TXT") GandiMinTtl recordVal])
            else
              (.ok (),
               [.getRecord domain challengeFQDN (String.data "TXT"),
                .updateRecord domain challengeFQDN (String.data "TXT") GandiMinTtl recordVal])

/-- The `fmt.Errorf` failure exits of `CleanUp` (`main.go` lines 133-158). -/
inductive CleanUpError
  | clientError (e : GandiClientError)
  | preCheckError (msg : List Char)
  | deleteError (msg : List Char)
deriving DecidableEq

/-- Embedding of `CleanUp` from `main.go` lines 133-158: build the client,
split the name, read the existing TXT record; when a record is found
(non-empty name and at least one value) delete the whole record set at that
name, otherwise return success without a delete. Returns the Go result and
the call trace. -/
def CleanUp (env : KubeEnv) (oracle : GandiOracle) (ch : ChallengeRequest) :
    Except CleanUpError Unit × List ProviderCall :=
  match (getGandiClient env ch.config ch.resourceNamespace).1 with
  | .error e => (.error (.clientError e), [])
  | .ok _gandiClient =>
    let (challengeFQDN, domain) := getDomainAndChallengeFQDN ch
    match oracle.getRecordResult with
    | .error e =>
        (.error (.preCheckError e),
         [.getRecord domain challengeFQDN (String.data "TXT")])
    | .ok domainRecord =>
      if domainRecord.rrsetName ≠ [] ∧ domainRecord.rrsetValues.length > 0 then
        match oracle.deleteResult with
        | .error e =>
            (.error (.deleteError e),
             [.getRecord domain challengeFQDN (String.data "TXT"),
              .deleteRecord domain challengeFQDN (String.data "TXT")])
        | .ok _ =>
            (.ok (),
             [.getRecord domain challengeFQDN (String.data "TXT"),
              .deleteRecord domain challengeFQDN (String.data "TXT")])
      else
        (.ok (), [.getRecord domain challengeFQDN (String.data "TXT")])

/-- Modelled from the spec: the external provider's record store, "the
provider's DNS record set for the given name/zone/type" (spec §4.1, §6) — a
list of records addressed by (zone, record name, record type). A raw list,
so that "exactly one record at a key" is a provable statement rather than a
modelling artifact. -/
structure ProviderState where
  records : List ((List Char × List Char × List Char) × DomainRecord)

/-- Modelled from the spec: `GetRecordByNameAndType(zone, name, type) → Record`
(spec §6); the first record stored at the key, if any. -/
def lookupRecord (s : ProviderState) (zone name rtype : List Char) : Option DomainRecord :=
  (s.records.find? (fun e => decide (e.1 = (zone, name, rtype)))).map (fun e => e.2)

/-- Number of records the provider holds at a key. -/
def countRecords (s : ProviderState) (zone name rtype : List Char) : Nat :=
  (s.records.filter (fun e => decide (e.1 = (zone, name, rtype)))).length

/-- Modelled from the spec: the upsert
`UpdateRecordByNameAndType(zone, name, type, ttl, values)` (spec §6) "relying
on the provider API to create it" (spec §4.1.d) — after it the key holds
exactly the one record with the given ttl and values. -/
def setRecord (s : ProviderState) (zone name rtype : List Char) (r : DomainRecord) :
    ProviderState :=
  ⟨(s.records.filter (fun e => !(decide (e.1 = (zone, name, rtype))))) ++
    [((zone, name, rtype), r)]⟩

/-- Modelled from the spec: `DeleteRecord(zone, name, type)` (spec §6)
removes the whole record set at the key. -/
def removeRecord (s : ProviderState) (zone name rtype : List Char) : ProviderState :=
  ⟨s.records.filter (fun e => !(decide (e.1 = (zone, name, rtype))))⟩

/-- Effect of one provider call on the provider's record store; reads leave
it unchanged. -/
def applyCall (s : ProviderState) : ProviderCall → ProviderState
  | .getRecord _ _ _ => s
  | .updateRecord zone name rtype ttl values =>
      setRecord s zone name rtype ⟨name, rtype, ttl, values⟩
  | .deleteRecord zone name rtype => removeRecord s zone name rtype

/-- Effect of a call trace on the provider's record store. -/
def applyTrace (s : ProviderState) (calls : List ProviderCall) : ProviderState :=
  calls.foldl applyCall s

/-- Modelled from the spec: the responses of a provider that "accepts the
calls" — the read returns the stored TXT record at the key (its zero value
when none is stored, which is how `main.go`'s found-check reads absence),
writes succeed with code 200. -/
def honestOracle (s : ProviderState) (zone name : List Char) : GandiOracle :=
  { getRecordResult :=
      .ok ((lookupRecord s zone name (String.data "TXT")).getD ⟨[], [], 0, []⟩),
    updateResult := .ok ⟨200⟩,
    deleteResult := .ok () }

/-- Run of `Present` against an honest provider in state `s`: the Go result
together with the provider state after the issued calls. -/
def runPresent (env : KubeEnv) (ch : ChallengeRequest) (s : ProviderState) :
    Except PresentError Unit × ProviderState :=
  let oracle := honestOracle s (getDomainAndChallengeFQDN ch).2 (getDomainAndChallengeFQDN ch).1
  let (result, calls) := Present env oracle ch
  (result, applyTrace s calls)

/-- Whether a provider call mutates the record store (update or delete). -/
def isMutation : ProviderCall → Bool
  | .getRecord _ _ _ => false
  | .updateRecord _ _ _ _ _ => true
  | .deleteRecord _ _ _ => true

/-- The (zone, name, type) key a provider call addresses. -/
def callKey : ProviderCall → List Char × List Char × List Char
  | .getRecord domain name rtype => (domain, name, rtype)
  | .updateRecord domain name rtype _ _ => (domain, name, rtype)
  | .deleteRecord domain name rtype => (domain, name, rtype)

/-- Checks a call trace in order: a read marks its key as seen, and every
mutation must address a key already seen by a read. -/
def readBeforeMutate (seen : List (List Char × List Char × List Char)) :
    List ProviderCall → Bool
  | [] => true
  | ProviderCall.getRecord domain name rtype :: rest =>
      readBeforeMutate ((domain, name, rtype) :: seen) rest
  | c :: rest => decide (callKey c ∈ seen) && readBeforeMutate seen rest

/-- Concrete environment for the witnesses: JSON decoding yields a reference
to secret `gandi-creds`, key `token`; the secret store holds that key. -/
def envW : KubeEnv where
  unmarshal := fun _ => .ok ⟨⟨String.data "gandi-creds", String.data "token"⟩⟩
  getSecret := fun _ _ => .ok ⟨[(String.data "token", String.data "pat-value")]⟩

/-- Concrete challenge request for the witnesses (the spec §8 end-to-end
scenario). -/
def chW : ChallengeRequest where
  resolvedZone := String.data "example.com."
  resolvedFQDN := String.data "_acme-challenge.example.com."
  key := String.data "abc123"
  resourceNamespace := String.data "ns1"
  config := some (String.data "cfg")

/-- go-gandi client value the witness environment produces. -/
def clW : LiveDNS := ⟨String.data "pat-value"⟩

/-- A found TXT record for the witnesses, holding a value that differs from
the challenge key. -/
def recFoundW : DomainRecord :=
  ⟨String.data "_acme-challenge", String.data "TXT", 300, [String.data "other-value"]⟩

/-- Oracle for the witnesses: read finds `recFoundW`, writes succeed. -/
def oracleFoundW : GandiOracle := ⟨.ok recFoundW, .ok ⟨200⟩, .ok ()⟩

/-- Oracle whose read finds no record (the zero `DomainRecord`), for the C9
witness. -/
def oracleEmptyW : GandiOracle := ⟨.ok ⟨[], [], 0, []⟩, .ok ⟨200⟩, .ok ()⟩

/-- Oracle whose update call answers with status code 500, for the C6
witness. -/
def oracle500W : GandiOracle := ⟨.ok recFoundW, .ok ⟨500⟩, .ok ()⟩

/-- Challenge request with an absent configuration payload, for the C5
witness. -/
def chNoneW : ChallengeRequest := { chW with config := none }

/-- Environment whose secret exists but does not hold the configured
`token` key, for the C7 witness. -/
def envNoKeyW : KubeEnv where
  unmarshal := fun _ => .ok ⟨⟨String.data "gandi-creds", String.data "token"⟩⟩
  getSecret := fun _ _ => .ok ⟨[(String.data "other-key", String.data "v")]⟩

/-- Provider state already holding two TXT values at the target name, for
the C10 witness. -/
def sPrevW : ProviderState :=
  ⟨[((String.data "example.com", String.data "_acme-challenge", String.data "TXT"),
     ⟨String.data "_acme-challenge", String.data "TXT", 600,
      [String.data "old1", String.data "old2"]⟩)]⟩

theorem trimSuffix_of_isSuffix {s z : List Char} (h : z <:+ s) :
    trimSuffix s z = s.take (s.length - z.length) := by
  simp [trimSuffix, List.isSuffixOf_iff_suffix, h]

theorem trimSuffix_singleton (c : Char) (l : List Char) :
    trimSuffix l [c] = if l.getLast? = some c then l.dropLast else l := by
  by_cases h : l.getLast? = some c
  · have hne : l ≠ [] := by
      intro hnil; rw [hnil] at h; simp at h
    have hdecomp : l.dropLast ++ [c] = l := by
      have := List.dropLast_concat_getLast hne
      rwa [List.getLast_eq_iff_getLast?_eq_some hne |>.mpr h] at this
    have hsuf : [c] <:+ l := ⟨l.dropLast, hdecomp⟩
    rw [trimSuffix_of_isSuffix hsuf, if_pos h]
    calc l.take (l.length - 1)
        = (l.dropLast ++ [c]).take (l.length - 1) := by rw [hdecomp]
      _ = l.dropLast := by
          apply List.take_left'
          have : l.length = l.dropLast.length + 1 := by
            conv_lhs => rw [← hdecomp]
            simp
          omega
  · have hnsuf : ¬ ([c] <:+ l) := by
      rintro ⟨t, ht⟩
      exact h (ht ▸ List.getLast?_concat t)
    simp [trimSuffix, List.isSuffixOf_iff_suffix, hnsuf, h]

/-- C2: when the FQDN ends with the zone and both are dot-terminated, the
split returns the FQDN with the zone suffix and then one trailing dot
removed, and the zone with its trailing dot removed. -/
theorem getDomainAndChallengeFQDN_correct (ch : ChallengeRequest)
    (hzero : ch.resolvedZone ≠ [])
    (hzdot : ch.resolvedZone.getLast? = some '.')
    (hfdot : ch.resolvedFQDN.getLast? = some '.')
    (hsuf : ch.resolvedZone <:+ ch.resolvedFQDN) :
    getDomainAndChallengeFQDN ch =
      (specDropTrailingDot (specDropZoneSuffix ch.resolvedFQDN ch.resolvedZone),
       ch.resolvedZone.dropLast) := by
  have hdot : (String.data ".") = ['.'] := rfl
  have hzone : trimSuffix ch.resolvedZone (String.data ".") = ch.resolvedZone.dropLast := by
    rw [hdot, trimSuffix_singleton, if_pos hzdot]
  simp only [getDomainAndChallengeFQDN, trimSuffix_of_isSuffix hsuf, hzone, hdot,
    trimSuffix_singleton, specDropTrailingDot, specDropZoneSuffix]

/-- C2 witness: the spec's own example, FQDN `_acme-challenge.example.com.`
with zone `example.com.`, yields record name `_acme-challenge` and domain
`example.com`. -/
theorem getDomainAndChallengeFQDN_correct_witness :
    (String.data "example.com.") ≠ [] ∧
    (String.data "example.com.").getLast? = some '.' ∧
    (String.data "_acme-challenge.example.com.").getLast? = some '.' ∧
    (String.data "example.com.") <:+ (String.data "_acme-challenge.example.com.") ∧
    getDomainAndChallengeFQDN
      ⟨String.data "example.com.", String.data "_acme-challenge.example.com.",
       String.data "key", String.data "ns", none⟩ =
      (specDropTrailingDot
        (specDropZoneSuffix (String.data "_acme-challenge.example.com.")
          (String.data "example.com.")),
       (String.data "example.com.").dropLast) ∧
    getDomainAndChallengeFQDN
      ⟨String.data "example.com.", String.data "_acme-challenge.example.com.",
       String.data "key", String.data "ns", none⟩ =
      (String.data "_acme-challenge", String.data "example.com") := by
  refine ⟨by decide, by decide, by decide, ⟨String.data "_acme-challenge.", by decide⟩, ?_, by decide⟩
  exact getDomainAndChallengeFQDN_correct _ (by decide) (by decide) (by decide)
    ⟨String.data "_acme-challenge.", by decide⟩

theorem lookupRecord_setRecord (s : ProviderState) (zone name rtype : List Char)
    (r : DomainRecord) : lookupRecord (setRecord s zone name rtype r) zone name rtype = some r := by
  have hnone : (s.records.filter (fun e => !(decide (e.1 = (zone, name, rtype))))).find?
      (fun e => decide (e.1 = (zone, name, rtype))) = none := by
    rw [List.find?_eq_none]
    intro x hx
    rcases List.mem_filter.mp hx with ⟨-, hx2⟩
    simpa using hx2
  simp [lookupRecord, setRecord, List.find?_append, hnone]

theorem countRecords_setRecord (s : ProviderState) (zone name rtype : List Char)
    (r : DomainRecord) : countRecords (setRecord s zone name rtype r) zone name rtype = 1 := by
  have hempty : (s.records.filter (fun e => !(decide (e.1 = (zone, name, rtype))))).filter
      (fun e => decide (e.1 = (zone, name, rtype))) = [] := by
    rw [List.filter_eq_nil_iff]
    intro x hx
    rcases List.mem_filter.mp hx with ⟨-, hx2⟩
    simpa using hx2
  simp [countRecords, setRecord, List.filter_append, hempty]

/-- Helper for the `Present` happy path: given a working client and a
provider that answers the read and answers the update with code 200,
`Present` succeeds and its trace is the read followed by the single upsert,
whichever branch of the found-check ran. -/
theorem Present_ok_trace (env : KubeEnv) (oracle : GandiOracle) (ch : ChallengeRequest)
    (cl : LiveDNS) (rec : DomainRecord)
    (hclient : (getGandiClient env ch.config ch.resourceNamespace).1 = .ok cl)
    (hget : oracle.getRecordResult = .ok rec)
    (hupd : oracle.updateResult = .ok ⟨200⟩) :
    Present env oracle ch =
      (.ok (),
       [.getRecord (getDomainAndChallengeFQDN ch).2 (getDomainAndChallengeFQDN ch).1
          (String.data "TXT"),
        .updateRecord (getDomainAndChallengeFQDN ch).2 (getDomainAndChallengeFQDN ch).1
          (String.data "TXT") GandiMinTtl [ch.key]]) := by
  rcases hsplit : getDomainAndChallengeFQDN ch with ⟨challengeFQDN, domain⟩
  by_cases hfound : rec.rrsetName ≠ [] ∧ rec.rrsetValues.length > 0
  · simp [Present, hclient, hget, hupd, hsplit, hfound]
  · simp [Present, hclient, hget, hupd, hsplit, hfound]

/-- C1: against an honest provider in any starting state, and with a working
client configuration, presenting the same challenge twice succeeds both times
and leaves exactly one TXT record at the target name, whose value set
contains the challenge key. -/
theorem Present_idempotent (env : KubeEnv) (ch : ChallengeRequest) (s : ProviderState)
    (cl : LiveDNS)
    (hclient : (getGandiClient env ch.config ch.resourceNamespace).1 = .ok cl) :
    (runPresent env ch s).1 = .ok () ∧
    (runPresent env ch (runPresent env ch s).2).1 = .ok () ∧
    countRecords (runPresent env ch (runPresent env ch s).2).2
      (getDomainAndChallengeFQDN ch).2 (getDomainAndChallengeFQDN ch).1
      (String.data "TXT") = 1 ∧
    ∃ rec, lookupRecord (runPresent env ch (runPresent env ch s).2).2
        (getDomainAndChallengeFQDN ch).2 (getDomainAndChallengeFQDN ch).1
        (String.data "TXT") = some rec ∧
      ch.key ∈ rec.rrsetValues := by
  have hrun : ∀ st : ProviderState, runPresent env ch st =
      (.ok (), setRecord st (getDomainAndChallengeFQDN ch).2 (getDomainAndChallengeFQDN ch).1
        (String.data "TXT")
        ⟨(getDomainAndChallengeFQDN ch).1, String.data "TXT", GandiMinTtl, [ch.key]⟩) := by
    intro st
    have h1 := Present_ok_trace env
      (honestOracle st (getDomainAndChallengeFQDN ch).2 (getDomainAndChallengeFQDN ch).1)
      ch cl ((lookupRecord st (getDomainAndChallengeFQDN ch).2 (getDomainAndChallengeFQDN ch).1
        (String.data "TXT")).getD ⟨[], [], 0, []⟩) hclient rfl rfl
    simp [runPresent, h1, applyTrace, applyCall]
  refine ⟨by rw [hrun], by rw [hrun s, hrun], ?_, ?_⟩
  · rw [hrun s, hrun]
    exact countRecords_setRecord _ _ _ _ _
  · refine ⟨⟨(getDomainAndChallengeFQDN ch).1, String.data "TXT", GandiMinTtl, [ch.key]⟩, ?_, ?_⟩
    · rw [hrun s, hrun]
      exact lookupRecord_setRecord _ _ _ _ _
    · exact List.mem_singleton.mpr rfl

/-- C1 witness: the spec §8 scenario against an empty provider — the client
resolves, and two consecutive `Present` calls both succeed and leave exactly
one TXT record containing `abc123`. -/
theorem Present_idempotent_witness :
    (getGandiClient envW chW.config chW.resourceNamespace).1 =
      .ok ⟨String.data "pat-value"⟩ ∧
    ((runPresent envW chW ⟨[]⟩).1 = .ok () ∧
     (runPresent envW chW (runPresent envW chW ⟨[]⟩).2).1 = .ok () ∧
     countRecords (runPresent envW chW (runPresent envW chW ⟨[]⟩).2).2
       (getDomainAndChallengeFQDN chW).2 (getDomainAndChallengeFQDN chW).1
       (String.data "TXT") = 1 ∧
     ∃ rec, lookupRecord (runPresent envW chW (runPresent envW chW ⟨[]⟩).2).2
         (getDomainAndChallengeFQDN chW).2 (getDomainAndChallengeFQDN chW).1
         (String.data "TXT") = some rec ∧
       chW.key ∈ rec.rrsetValues) :=
  ⟨rfl, Present_idempotent envW chW ⟨[]⟩ ⟨String.data "pat-value"⟩ rfl⟩

/-- Helper: the trace of a `Present` call is empty (client failure), a lone
read (read failure), or the read followed by the single canonical upsert. -/
theorem Present_trace_shape (env : KubeEnv) (oracle : GandiOracle) (ch : ChallengeRequest) :
    (Present env oracle ch).2 = [] ∨
    (Present env oracle ch).2 =
      [.getRecord (getDomainAndChallengeFQDN ch).2 (getDomainAndChallengeFQDN ch).1
        (String.data "TXT")] ∨
    (Present env oracle ch).2 =
      [.getRecord (getDomainAndChallengeFQDN ch).2 (getDomainAndChallengeFQDN ch).1
        (String.data "TXT"),
       .updateRecord (getDomainAndChallengeFQDN ch).2 (getDomainAndChallengeFQDN ch).1
        (String.data "TXT") GandiMinTtl [ch.key]] := by
  rcases hsplit : getDomainAndChallengeFQDN ch with ⟨challengeFQDN, domain⟩
  cases hc : (getGandiClient env ch.config ch.resourceNamespace).1 with
  | error e => left; simp [Present, hc]
  | ok cl =>
    cases hg : oracle.getRecordResult with
    | error e => right; left; simp [Present, hc, hg, hsplit]
    | ok rec =>
      right; right
      by_cases hfound : rec.rrsetName ≠ [] ∧ rec.rrsetValues.length > 0 <;>
        cases hu : oracle.updateResult with
      | error e => simp [Present, hc, hg, hu, hsplit, hfound]
      | ok resp =>
        by_cases hcode : resp.code ≠ 200 <;>
          simp [Present, hc, hg, hu, hsplit, hfound, hcode]

/-- Helper: the trace of a `CleanUp` call is empty (client failure), a lone
read, or the read followed by the delete of the whole record set. -/
theorem CleanUp_trace_shape (env : KubeEnv) (oracle : GandiOracle) (ch : ChallengeRequest) :
    (CleanUp env oracle ch).2 = [] ∨
    (CleanUp env oracle ch).2 =
      [.getRecord (getDomainAndChallengeFQDN ch).2 (getDomainAndChallengeFQDN ch).1
        (String.data "TXT")] ∨
    (CleanUp env oracle ch).2 =
      [.getRecord (getDomainAndChallengeFQDN ch).2 (getDomainAndChallengeFQDN ch).1
        (String.data "TXT"),
       .deleteRecord (getDomainAndChallengeFQDN ch).2 (getDomainAndChallengeFQDN ch).1
        (String.data "TXT")] := by
  rcases hsplit : getDomainAndChallengeFQDN ch with ⟨challengeFQDN, domain⟩
  cases hc : (getGandiClient env ch.config ch.resourceNamespace).1 with
  | error e => left; simp [CleanUp, hc]
  | ok cl =>
    cases hg : oracle.getRecordResult with
    | error e => right; left; simp [CleanUp, hc, hg, hsplit]
    | ok rec =>
      by_cases hfound : rec.rrsetName ≠ [] ∧ rec.rrsetValues.length > 0
      · right; right
        cases hd : oracle.deleteResult with
        | error e => simp [CleanUp, hc, hg, hd, hsplit, hfound]
        | ok u => simp [CleanUp, hc, hg, hd, hsplit, hfound]
      · right; left; simp [CleanUp, hc, hg, hsplit, hfound]

/-- C3: when the read finds nothing (empty name or empty value list),
`CleanUp` succeeds and issues no delete; when the read finds a record with a
non-empty name and at least one value — whatever those values are — `CleanUp`
issues a delete of the whole TXT record set at (zone, recordName). -/
theorem CleanUp_contract (env : KubeEnv) (oracle : GandiOracle) (ch : ChallengeRequest)
    (cl : LiveDNS) (rec : DomainRecord)
    (hclient : (getGandiClient env ch.config ch.resourceNamespace).1 = .ok cl)
    (hget : oracle.getRecordResult = .ok rec) :
    (rec.rrsetName = [] ∨ rec.rrsetValues = [] →
      CleanUp env oracle ch =
        (.ok (),
         [.getRecord (getDomainAndChallengeFQDN ch).2 (getDomainAndChallengeFQDN ch).1
           (String.data "TXT")])) ∧
    (rec.rrsetName ≠ [] → rec.rrsetValues ≠ [] →
      (CleanUp env oracle ch).2 =
        [.getRecord (getDomainAndChallengeFQDN ch).2 (getDomainAndChallengeFQDN ch).1
          (String.data "TXT"),
         .deleteRecord (getDomainAndChallengeFQDN ch).2 (getDomainAndChallengeFQDN ch).1
          (String.data "TXT")]) := by
  rcases hsplit : getDomainAndChallengeFQDN ch with ⟨challengeFQDN, domain⟩
  constructor
  · intro hempty
    have hnotfound : ¬ (rec.rrsetName ≠ [] ∧ rec.rrsetValues.length > 0) := by
      rcases hempty with h | h <;> simp [h]
    simp [CleanUp, hclient, hget, hsplit, hnotfound]
  · intro h1 h2
    have hlen : rec.rrsetValues.length > 0 := List.length_pos.mpr h2
    cases hd : oracle.deleteResult with
    | error e => simp [CleanUp, hclient, hget, hsplit, hd, h1, hlen]
    | ok u => simp [CleanUp, hclient, hget, hsplit, hd, h1, hlen]

/-- C3 witness: with the read returning a record whose only value differs
from the challenge key, `CleanUp` still deletes the whole record set. -/
theorem CleanUp_contract_witness :
    (getGandiClient envW chW.config chW.resourceNamespace).1 = .ok clW ∧
    oracleFoundW.getRecordResult = .ok recFoundW ∧
    ((recFoundW.rrsetName = [] ∨ recFoundW.rrsetValues = [] →
      CleanUp envW oracleFoundW chW =
        (.ok (),
         [.getRecord (getDomainAndChallengeFQDN chW).2 (getDomainAndChallengeFQDN chW).1
           (String.data "TXT")])) ∧
    (recFoundW.rrsetName ≠ [] → recFoundW.rrsetValues ≠ [] →
      (CleanUp envW oracleFoundW chW).2 =
        [.getRecord (getDomainAndChallengeFQDN chW).2 (getDomainAndChallengeFQDN chW).1
          (String.data "TXT"),
         .deleteRecord (getDomainAndChallengeFQDN chW).2 (getDomainAndChallengeFQDN chW).1
          (String.data "TXT")])) :=
  ⟨rfl, rfl, CleanUp_contract envW oracleFoundW chW clW recFoundW rfl rfl⟩

/-- C4: every upsert `Present` issues carries a TTL of at least 300. -/
theorem Present_ttl_floor (env : KubeEnv) (oracle : GandiOracle) (ch : ChallengeRequest)
    (domain name rtype : List Char) (ttl : Nat) (values : List (List Char))
    (hmem : ProviderCall.updateRecord domain name rtype ttl values ∈ (Present env oracle ch).2) :
    300 ≤ ttl := by
  rcases Present_trace_shape env oracle ch with h | h | h <;> rw [h] at hmem
  · simp at hmem
  · simp at hmem
  · simp at hmem
    obtain ⟨-, -, -, h4, -⟩ := hmem
    rw [h4]
    decide

/-- C4 witness: the upsert of the spec §8 scenario is in the trace and its
TTL, 300, meets the floor. -/
theorem Present_ttl_floor_witness :
    ProviderCall.updateRecord (String.data "example.com") (String.data "_acme-challenge")
      (String.data "TXT") 300 [String.data "abc123"] ∈ (Present envW oracleFoundW chW).2 ∧
    (300 : Nat) ≤ 300 :=
  ⟨by decide,
   Present_ttl_floor envW oracleFoundW chW (String.data "example.com")
     (String.data "_acme-challenge") (String.data "TXT") 300 [String.data "abc123"]
     (by decide)⟩

/-- C5: with an absent configuration payload, `Present` and `CleanUp` both
fail with the configuration error, issue no provider call, and the client
construction performs no secret-store lookup. -/
theorem absent_config_clean_failure (env : KubeEnv) (oracle : GandiOracle)
    (ch : ChallengeRequest) (hcfg : ch.config = none) :
    (Present env oracle ch).1 =
      .error (.clientError .noConfiguration) ∧
    (Present env oracle ch).2 = [] ∧
    (CleanUp env oracle ch).1 =
      .error (.clientError .noConfiguration) ∧
    (CleanUp env oracle ch).2 = [] ∧
    (getGandiClient env ch.config ch.resourceNamespace).2 = [] := by
  refine ⟨?_, ?_, ?_, ?_, ?_⟩ <;> simp [Present, CleanUp, getGandiClient, hcfg]

/-- C5 witness: the spec §8 request with its configuration removed fails
cleanly on both operations, with empty call traces and no secret lookup. -/
theorem absent_config_clean_failure_witness :
    chNoneW.config = none ∧
    ((Present envW oracleFoundW chNoneW).1 =
      .error (.clientError .noConfiguration) ∧
    (Present envW oracleFoundW chNoneW).2 = [] ∧
    (CleanUp envW oracleFoundW chNoneW).1 =
      .error (.clientError .noConfiguration) ∧
    (CleanUp envW oracleFoundW chNoneW).2 = [] ∧
    (getGandiClient envW chNoneW.config chNoneW.resourceNamespace).2 = []) :=
  ⟨rfl, absent_config_clean_failure envW oracleFoundW chNoneW rfl⟩

/-- C6: when the update call returns a response with a status code other
than 200, `Present` returns an error carrying that code and the target
domain, and the error text contains the code's decimal digits and the
domain. -/
theorem Present_non200_surfaces (env : KubeEnv) (oracle : GandiOracle)
    (ch : ChallengeRequest) (cl : LiveDNS) (rec : DomainRecord) (resp : UpdateResponse)
    (hclient : (getGandiClient env ch.config ch.resourceNamespace).1 = .ok cl)
    (hget : oracle.getRecordResult = .ok rec)
    (hupd : oracle.updateResult = .ok resp)
    (hcode : resp.code ≠ 200) :
    ∃ e : PresentError, (Present env oracle ch).1 = .error e ∧
      (e = .changeCode resp.code (getDomainAndChallengeFQDN ch).2 ∨
       e = .createCode resp.code (getDomainAndChallengeFQDN ch).2) ∧
      Nat.toDigits 10 resp.code <:+: e.message ∧
      (getDomainAndChallengeFQDN ch).2 <:+: e.message := by
  rcases hsplit : getDomainAndChallengeFQDN ch with ⟨challengeFQDN, domain⟩
  simp only [hsplit]
  by_cases hfound : rec.rrsetName ≠ [] ∧ rec.rrsetValues.length > 0
  · refine ⟨.changeCode resp.code domain, ?_, .inl rfl, ?_, ?_⟩
    · simp [Present, hclient, hget, hupd, hsplit, hfound, hcode]
    · exact ⟨String.data "got code ",
        String.data " while trying to change TXT record: " ++ domain,
        by simp [PresentError.message, List.append_assoc]⟩
    · exact ⟨String.data "got code " ++ Nat.toDigits 10 resp.code ++
        String.data " while trying to change TXT record: ", [],
        by simp [PresentError.message, List.append_assoc]⟩
  · refine ⟨.createCode resp.code domain, ?_, .inr rfl, ?_, ?_⟩
    · simp [Present, hclient, hget, hupd, hsplit, hfound, hcode]
    · exact ⟨String.data "got code ",
        String.data " while trying to create TXT record: " ++ domain,
        by simp [PresentError.message, List.append_assoc]⟩
    · exact ⟨String.data "got code " ++ Nat.toDigits 10 resp.code ++
        String.data " while trying to create TXT record: ", [],
        by simp [PresentError.message, List.append_assoc]⟩

/-- C6 witness: an update answered with code 500 makes `Present` fail with
an error that names code 500 and the domain `example.com`. -/
theorem Present_non200_surfaces_witness :
    (getGandiClient envW chW.config chW.resourceNamespace).1 = .ok clW ∧
    oracle500W.updateResult = .ok ⟨500⟩ ∧
    (500 : Nat) ≠ 200 ∧
    (∃ e : PresentError, (Present envW oracle500W chW).1 = .error e ∧
      (e = .changeCode 500 (getDomainAndChallengeFQDN chW).2 ∨
       e = .createCode 500 (getDomainAndChallengeFQDN chW).2) ∧
      Nat.toDigits 10 500 <:+: e.message ∧
      (getDomainAndChallengeFQDN chW).2 <:+: e.message) :=
  ⟨rfl, rfl, by decide,
   Present_non200_surfaces envW oracle500W chW clW recFoundW ⟨500⟩ rfl rfl rfl (by decide)⟩

/-- C7: a secret that decodes and loads but lacks the configured key makes
client construction fail with the key-not-found error, which names the
missing key and is a different error from every secret-lookup failure. -/
theorem missing_secret_key_distinct (env : KubeEnv) (raw ns : List Char)
    (cfg : gandiDNSProviderConfig) (sec : Secret)
    (hdec : env.unmarshal raw = .ok cfg)
    (hget : env.getSecret ns cfg.patSecretRef.name = .ok sec)
    (hkey : sec.lookupData cfg.patSecretRef.key = none) :
    (getGandiClient env (some raw) ns).1 =
      .error (.keyNotFound cfg.patSecretRef.key cfg.patSecretRef.name ns) ∧
    cfg.patSecretRef.key <:+:
      (GandiClientError.keyNotFound cfg.patSecretRef.key cfg.patSecretRef.name ns).message ∧
    (∀ secretName msg, GandiClientError.keyNotFound cfg.patSecretRef.key cfg.patSecretRef.name ns ≠
      .secretGetError secretName msg) := by
  refine ⟨?_, ?_, ?_⟩
  · simp [getGandiClient, hdec, hget, hkey]
  · exact ⟨String.data "key \"",
      String.data "\" not found in secret \"" ++ cfg.patSecretRef.name ++
        String.data "/" ++ ns ++ String.data "\"",
      by simp [GandiClientError.message, List.append_assoc]⟩
  · intro secretName msg
    simp

/-- C7 witness: against a secret holding only `other-key`, client
construction fails with the key-not-found error for `token`, distinct from
every secret-lookup error. -/
theorem missing_secret_key_distinct_witness :
    envNoKeyW.unmarshal (String.data "cfg") =
      .ok ⟨⟨String.data "gandi-creds", String.data "token"⟩⟩ ∧
    envNoKeyW.getSecret (String.data "ns1") (String.data "gandi-creds") =
      .ok ⟨[(String.data "other-key", String.data "v")]⟩ ∧
    Secret.lookupData ⟨[(String.data "other-key", String.data "v")]⟩ (String.data "token") = none ∧
    ((getGandiClient envNoKeyW (some (String.data "cfg")) (String.data "ns1")).1 =
      .error (.keyNotFound (String.data "token") (String.data "gandi-creds") (String.data "ns1")) ∧
    (String.data "token") <:+:
      (GandiClientError.keyNotFound (String.data "token") (String.data "gandi-creds")
        (String.data "ns1")).message ∧
    (∀ secretName msg, GandiClientError.keyNotFound (String.data "token")
      (String.data "gandi-creds") (String.data "ns1") ≠ .secretGetError secretName msg)) :=
  ⟨rfl, rfl, rfl,
   missing_secret_key_distinct envNoKeyW (String.data "cfg") (String.data "ns1")
     ⟨⟨String.data "gandi-creds", String.data "token"⟩⟩
     ⟨[(String.data "other-key", String.data "v")]⟩ rfl rfl rfl⟩

/-- C8: in every execution of `Present` or `CleanUp`, each provider mutation
in the issued trace is preceded by a read of the same (zone, name, type)
key. -/
theorem read_precedes_mutation (env : KubeEnv) (oracle : GandiOracle)
    (ch : ChallengeRequest) :
    readBeforeMutate [] (Present env oracle ch).2 = true ∧
    readBeforeMutate [] (CleanUp env oracle ch).2 = true := by
  constructor
  · rcases Present_trace_shape env oracle ch with h | h | h <;> rw [h] <;>
      simp [readBeforeMutate, callKey]
  · rcases CleanUp_trace_shape env oracle ch with h | h | h <;> rw [h] <;>
      simp [readBeforeMutate, callKey]

/-- Helper: with a working client and a successful read, the trace of
`Present` is the read followed by the canonical upsert, in whichever branch
of the found-check. -/
theorem Present_trace_read_ok (env : KubeEnv) (oracle : GandiOracle) (ch : ChallengeRequest)
    (cl : LiveDNS) (rec : DomainRecord)
    (hclient : (getGandiClient env ch.config ch.resourceNamespace).1 = .ok cl)
    (hget : oracle.getRecordResult = .ok rec) :
    (Present env oracle ch).2 =
      [.getRecord (getDomainAndChallengeFQDN ch).2 (getDomainAndChallengeFQDN ch).1
        (String.data "TXT"),
       .updateRecord (getDomainAndChallengeFQDN ch).2 (getDomainAndChallengeFQDN ch).1
        (String.data "TXT") GandiMinTtl [ch.key]] := by
  rcases hsplit : getDomainAndChallengeFQDN ch with ⟨challengeFQDN, domain⟩
  by_cases hfound : rec.rrsetName ≠ [] ∧ rec.rrsetValues.length > 0 <;>
    cases hu : oracle.updateResult with
  | error e => simp [Present, hclient, hget, hu, hsplit, hfound]
  | ok resp =>
    by_cases hcode : resp.code ≠ 200 <;>
      simp [Present, hclient, hget, hu, hsplit, hfound, hcode]

/-- C9: whatever records the two reads return — in particular one taking the
record-found branch and the other the record-not-found branch — `Present`
issues the same calls, and its only mutation is the one canonical upsert
with the same zone, name, type, TTL and values. -/
theorem Present_branch_equivalence (env : KubeEnv) (ch : ChallengeRequest)
    (o₁ o₂ : GandiOracle) (rec₁ rec₂ : DomainRecord) (c : ProviderCall)
    (h₁ : o₁.getRecordResult = .ok rec₁)
    (h₂ : o₂.getRecordResult = .ok rec₂)
    (hmem : c ∈ (Present env o₁ ch).2)
    (hmut : isMutation c = true) :
    (Present env o₁ ch).2 = (Present env o₂ ch).2 ∧
    c = .updateRecord (getDomainAndChallengeFQDN ch).2 (getDomainAndChallengeFQDN ch).1
      (String.data "TXT") GandiMinTtl [ch.key] := by
  constructor
  · cases hc : (getGandiClient env ch.config ch.resourceNamespace).1 with
    | error e => simp [Present, hc]
    | ok cl =>
      rw [Present_trace_read_ok env o₁ ch cl rec₁ hc h₁,
        Present_trace_read_ok env o₂ ch cl rec₂ hc h₂]
  · rcases Present_trace_shape env o₁ ch with h | h | h <;> rw [h] at hmem
    · simp at hmem
    · simp at hmem
      rw [hmem] at hmut
      simp [isMutation] at hmut
    · rcases List.mem_cons.mp hmem with hget | htail
      · rw [hget] at hmut
        simp [isMutation] at hmut
      · simpa using htail

/-- C9 witness: against a read that finds `recFoundW` and a read that finds
nothing, `Present` issues identical traces, and its mutation is the
canonical upsert. -/
theorem Present_branch_equivalence_witness :
    oracleFoundW.getRecordResult = .ok recFoundW ∧
    oracleEmptyW.getRecordResult = .ok ⟨[], [], 0, []⟩ ∧
    ProviderCall.updateRecord (String.data "example.com") (String.data "_acme-challenge")
      (String.data "TXT") GandiMinTtl [String.data "abc123"] ∈ (Present envW oracleFoundW chW).2 ∧
    isMutation (ProviderCall.updateRecord (String.data "example.com")
      (String.data "_acme-challenge") (String.data "TXT") GandiMinTtl
      [String.data "abc123"]) = true ∧
    ((Present envW oracleFoundW chW).2 = (Present envW oracleEmptyW chW).2 ∧
     ProviderCall.updateRecord (String.data "example.com") (String.data "_acme-challenge")
       (String.data "TXT") GandiMinTtl [String.data "abc123"] =
      .updateRecord (getDomainAndChallengeFQDN chW).2 (getDomainAndChallengeFQDN chW).1
        (String.data "TXT") GandiMinTtl [chW.key]) :=
  ⟨rfl, rfl, by decide, rfl,
   Present_branch_equivalence envW chW oracleFoundW oracleEmptyW recFoundW ⟨[], [], 0, []⟩ _
     rfl rfl (by decide) rfl⟩

/-- C10: the value list of every upsert `Present` issues is exactly the
one-element list holding the challenge key, and applying that upsert to any
provider state leaves the key's record holding exactly that list —
pre-existing values are overwritten, not appended to. -/
theorem Present_upsert_replaces_values (env : KubeEnv) (oracle : GandiOracle)
    (ch : ChallengeRequest) (domain name rtype : List Char) (ttl : Nat)
    (values : List (List Char)) (s : ProviderState)
    (hmem : ProviderCall.updateRecord domain name rtype ttl values ∈ (Present env oracle ch).2) :
    values = [ch.key] ∧
    lookupRecord (applyCall s (.updateRecord domain name rtype ttl values)) domain name rtype =
      some ⟨name, rtype, ttl, [ch.key]⟩ := by
  have hv : values = [ch.key] := by
    rcases Present_trace_shape env oracle ch with h | h | h <;> rw [h] at hmem
    · simp at hmem
    · simp at hmem
    · simp at hmem
      exact hmem.2.2.2.2
  refine ⟨hv, ?_⟩
  rw [hv]
  simp [applyCall, lookupRecord_setRecord]

/-- C10 witness: the upsert of the spec §8 scenario carries exactly
`["abc123"]`, and applied to a state holding two old values it leaves the
record holding only `["abc123"]`. -/
theorem Present_upsert_replaces_values_witness :
    ProviderCall.updateRecord (String.data "example.com") (String.data "_acme-challenge")
      (String.data "TXT") 300 [String.data "abc123"] ∈ (Present envW oracleFoundW chW).2 ∧
    ([String.data "abc123"] = [chW.key] ∧
     lookupRecord (applyCall sPrevW (.updateRecord (String.data "example.com")
        (String.data "_acme-challenge") (String.data "TXT") 300 [String.data "abc123"]))
       (String.data "example.com") (String.data "_acme-challenge") (String.data "TXT") =
      some ⟨String.data "_acme-challenge", String.data "TXT", 300, [chW.key]⟩) :=
  ⟨by decide,
   Present_upsert_replaces_values envW oracleFoundW chW (String.data "example.com")
     (String.data "_acme-challenge") (String.data "TXT") 300 [String.data "abc123"] sPrevW
     (by decide)⟩

end GandiWebhook
